import Mathlib

/-!
Shallow embedding of `src/facilito/async_api.py` (class `AsyncFacilito`).

Each method of the class is embedded as a function `State → Env → Out α`:
`State` holds the in-memory `authenticated` flag and the existence of the
persisted session-state file, `Env` fixes the outcome of every external
browser/network/filesystem action the method performs, and `Out` records the
resulting state, the returned value or raised error, and the ordered list of
external actions the method performed (its effect trace).

The repository modules `utils.py`, `collectors.py`, `downloaders.py`,
`constants.py`, `errors.py`, `helpers.py` and `models.py` are not under
`src/`; where the embedding needs them, the definitions are modelled from the
spec and say so in their doc comments.  Everything else is translated line by
line from `async_api.py`.
-/

namespace Facilito

/-- Decidable equality for `Except`, needed to evaluate the embedding on
concrete environments. -/
instance {ε α : Type} [DecidableEq ε] [DecidableEq α] :
    DecidableEq (Except ε α) := fun x y =>
  match x, y with
  | .ok a, .ok b =>
      if h : a = b then .isTrue (h ▸ rfl)
      else .isFalse (fun hh => h (Except.ok.inj hh))
  | .error a, .error b =>
      if h : a = b then .isTrue (h ▸ rfl)
      else .isFalse (fun hh => h (Except.error.inj hh))
  | .ok _, .error _ => .isFalse (fun hh => Except.noConfusion hh)
  | .error _, .ok _ => .isFalse (fun hh => Except.noConfusion hh)

/-- Content-type tag of a unit record, used by `download` (source line 111,
`unit.type == TypeUnit.VIDEO`).  Declared in `models.py`, which is not under
`src/`; the three tags are the ones the spec names (video, lecture, quiz). -/
inductive TypeUnit
  | VIDEO
  | LECTURE
  | QUIZ
  deriving DecidableEq

/-- Modelled from the spec: `models.py` is not under `src/`.  A Unit is "a
content record with a type tag (video, lecture, quiz) and a slug (stable
identifier used to name downloaded files)". -/
structure Unit where
  type : TypeUnit
  slug : String
  deriving DecidableEq

/-- Modelled from the spec: `models.py` is not under `src/`.  A Course is "a
content record aggregating references to one or more Units". -/
structure Course where
  slug : String
  units : List Unit
  deriving DecidableEq

/-- Modelled from the spec: one entry of the JSON cookie export, in the
cookie-list schema the spec names ("name, value, domain, path, expiry,
flags"); the exact field set is an external contract no claim examines. -/
structure Cookie where
  name : String
  value : String
  domain : String
  path : String
  deriving DecidableEq

/-- Errors an operation can surface to its caller.  `raw m` stands for an
arbitrary Python exception with message `m` (for example the plain
`Exception` raised by `download` on an unclassifiable URL, or a
playwright error).  The domain kinds are modelled from the spec taxonomy,
`errors.py` being absent from `src/`: `loginError` is `LoginError`,
`authRequired` is the authentication-required error of the auth gate, and
`requestFailed` is the uniform request-failed wrapping that preserves the
original cause. -/
inductive Err
  | raw (msg : String)
  | loginError
  | authRequired
  | requestFailed (cause : String)
  deriving DecidableEq

/-- One external action performed by a method: browser lifecycle steps,
page navigation and element queries, session-state file accesses, and the
calls into the collector and downloader collaborators. -/
inductive Effect
  | playwrightStart
  | browserLaunch
  | contextCreate
  | stealthApply
  | loadState
  | newPage
  | goto (url : String)
  | waitForSelector (sel : String)
  | textContentQuery (sel : String)
  | pageClose
  | contextClose
  | browserClose
  | playwrightStop
  | saveState
  | unlinkSessionFile
  | collectorsFetchUnit (url : String)
  | collectorsFetchCourse (url : String)
  | downloadUnit (dest : String)
  | downloadCourse (slug : String)
  | readJson (path : String)
  | addCookies (cookies : List Cookie)
  deriving DecidableEq

/-- In-memory state of an `AsyncFacilito` instance together with the one
piece of disk state the class manages: `authenticated` is the instance
attribute set in `__init__`, `login` and `_set_profile`; `sessionFileExists`
models whether the session-state file is present on disk. -/
structure State where
  authenticated : Bool
  sessionFileExists : Bool
  deriving DecidableEq

/-- Outcomes of the external actions a method may perform, fixed up front so
that every method is a pure function of `State × Env`.  A `Fails` flag set to
`true` means the corresponding call raises; `waitSelectorResult` is the
outcome of `page.wait_for_selector` in `login` (`error`: raises, for example
on timeout; `ok false`: returns a falsy handle; `ok true`: returns an
element); `probeText` is the outcome of the `text_content` query in
`_set_profile` (`error`: raises, for example on the 5 second timeout;
`ok`: the optional text); `readJsonResult` is the outcome of
`read_json` in `set_cookies` (`error`: missing file or invalid JSON). -/
structure Env where
  playwrightStartFails : Bool
  browserLaunchFails : Bool
  contextCreateFails : Bool
  stealthFails : Bool
  loadStateFails : Bool
  newPageFails : Bool
  gotoFails : Bool
  waitSelectorResult : Except String Bool
  probeText : Except String (Option String)
  saveStateFails : Bool
  fetchUnitResult : Except String Unit
  fetchCourseResult : Except String Course
  downloadUnitFails : Bool
  downloadCourseFails : Bool
  readJsonResult : Except String (List Cookie)
  contextCloseFails : Bool
  browserCloseFails : Bool
  playwrightStopFails : Bool
  deriving DecidableEq

/-- Result of running one method: the state afterwards, the value returned or
the error raised, and the ordered trace of external actions performed. -/
structure Out (α : Type) where
  state : State
  result : Except Err α
  effects : List Effect
  deriving DecidableEq

/-- CSS selector of the greeting element, used both by `login` (source line
61) and by `_set_profile` (source line 137). -/
def SELECTOR : String := "h1.h1.f-text-34"

/-- Modelled from the spec: `constants.py` is not under `src/` and the spec
deliberately omits concrete URLs as site configuration; only the identity of
the login URL matters to the embedding. -/
def LOGIN_URL : String := "https://platform/login"

/-- Modelled from the spec: `constants.py` is not under `src/`; the base URL
the authentication probe navigates to. -/
def BASE_URL : String := "https://platform/"

/-- Message of the plain `Exception` that `download` raises on a URL that is
neither video, lecture, quiz nor course (source lines 124 to 126). -/
def invalidUrlMsg : String :=
  "Please provide a valid URL, either a video, lecture or course."

/-- Message standing for the `UnboundLocalError` Python raises when a
`finally` block runs `await page.close()` while the local `page` was never
assigned, because `await self.page` itself raised (source lines 63 to 83 and
140 to 156: `page` is assigned inside `try`, closed in `finally`). -/
def unboundLocalMsg : String :=
  "UnboundLocalError: local variable page referenced before assignment"

/-- Modelled from the spec: `utils.try_except_request` is not under `src/`.
Uniform failure wrapping: any underlying raw exception raised inside the
operation is re-raised as the domain request-failed error, preserving the
original cause; the system's own domain errors pass through unchanged, so
that callers only ever see the system's error taxonomy. -/
def try_except_request {α : Type} (f : State → Env → Out α) :
    State → Env → Out α :=
  fun s e =>
    match f s e with
    | ⟨s1, .error (.raw m), fx⟩ => ⟨s1, .error (.requestFailed m), fx⟩
    | o => o

/-- Modelled from the spec: `utils.login_required` is not under `src/`.
Auth gate: if `authenticated` is false at call time the operation fails
immediately with the authentication-required error and performs no action;
otherwise the wrapped operation runs unchanged. -/
def login_required {α : Type} (f : State → Env → Out α) :
    State → Env → Out α :=
  fun s e =>
    if s.authenticated then f s e else ⟨s, .error .authRequired, []⟩

/-- Membership of a pattern string inside a URL string. -/
def urlHas (url pat : String) : Bool :=
  decide (pat.data <:+: url.data)

/-- Modelled from the spec: `utils.is_video` is not under `src/`; the
classifier tests the URL against the platform's video URL shape (the spec's
example video URLs contain a `/videos/` segment). -/
def is_video (url : String) : Bool := urlHas url "/videos/"

/-- Modelled from the spec: `utils.is_lecture` is not under `src/`; lecture
URL shape. -/
def is_lecture (url : String) : Bool := urlHas url "/lectures/"

/-- Modelled from the spec: `utils.is_quiz` is not under `src/`; quiz URL
shape. -/
def is_quiz (url : String) : Bool := urlHas url "/quizzes/"

/-- Modelled from the spec: `utils.is_course` is not under `src/`; course
URL shape (the spec's example course URL contains a `/courses/` segment). -/
def is_course (url : String) : Bool := urlHas url "/courses/"

/-- Modelled from the spec: `utils.normalize_cookies` is not under `src/`.
The spec says only that the export is normalized to the browser-context's
expected cookie schema and treats the field-level mapping as a fixed external
contract, so the model keeps the list unchanged; no claim examines the
mapping itself, only that the installed cookies are the normalized ones. -/
def normalize_cookies (cs : List Cookie) : List Cookie := cs

/-- Python truthiness of the optional greeting text in `_set_profile`
(source line 148, `if welcome_message:`): `None` and the empty string are
falsy. -/
def truthy : Option String → Bool
  | none => false
  | some t => t != ""

/-- Body of `_set_profile` (source lines 136 to 156), before the
`try_except_request` decorator: open a page, navigate to the base URL, read
the greeting text with a 5 second timeout; a non-empty text sets
`authenticated`; any exception inside the `try` is swallowed; the `finally`
closes the page.  If opening the page itself raises, the `finally` block
hits the unbound local `page` and that `UnboundLocalError` propagates. -/
def set_profile_body (s : State) (e : Env) : Out PUnit :=
  if e.newPageFails then
    ⟨s, .error (.raw unboundLocalMsg), []⟩
  else if e.gotoFails then
    ⟨s, .ok ⟨⟩, [.newPage, .goto BASE_URL, .pageClose]⟩
  else
    match e.probeText with
    | .error _ =>
        ⟨s, .ok ⟨⟩, [.newPage, .goto BASE_URL, .textContentQuery SELECTOR, .pageClose]⟩
    | .ok t =>
        if truthy t then
          ⟨{ s with authenticated := true }, .ok ⟨⟩,
            [.newPage, .goto BASE_URL, .textContentQuery SELECTOR, .pageClose]⟩
        else
          ⟨s, .ok ⟨⟩, [.newPage, .goto BASE_URL, .textContentQuery SELECTOR, .pageClose]⟩

/-- `_set_profile`, the authentication probe (source lines 135 to 156),
with its `try_except_request` decorator. -/
def _set_profile : State → Env → Out PUnit :=
  try_except_request set_profile_body

/-- Body of `login` (source lines 57 to 83): open a page, navigate to the
login URL, wait up to 2 minutes for the greeting element; a falsy handle or
any exception inside the `try` becomes `LoginError`; on success set
`authenticated`, persist the session state; the `finally` closes the page.
If opening the page itself raises, the `finally` block hits the unbound
local `page` and that `UnboundLocalError` replaces the `LoginError`. -/
def login_body (s : State) (e : Env) : Out PUnit :=
  if e.newPageFails then
    ⟨s, .error (.raw unboundLocalMsg), []⟩
  else if e.gotoFails then
    ⟨s, .error .loginError, [.newPage, .goto LOGIN_URL, .pageClose]⟩
  else
    match e.waitSelectorResult with
    | .error _ =>
        ⟨s, .error .loginError,
          [.newPage, .goto LOGIN_URL, .waitForSelector SELECTOR, .pageClose]⟩
    | .ok false =>
        ⟨s, .error .loginError,
          [.newPage, .goto LOGIN_URL, .waitForSelector SELECTOR, .pageClose]⟩
    | .ok true =>
        if e.saveStateFails then
          ⟨{ s with authenticated := true }, .error .loginError,
            [.newPage, .goto LOGIN_URL, .waitForSelector SELECTOR, .pageClose]⟩
        else
          ⟨{ authenticated := true, sessionFileExists := true }, .ok ⟨⟩,
            [.newPage, .goto LOGIN_URL, .waitForSelector SELECTOR, .saveState, .pageClose]⟩

/-- `login` (source lines 56 to 83) with its `try_except_request`
decorator. -/
def login : State → Env → Out PUnit :=
  try_except_request login_body

/-- Body of `logout` (source lines 86 to 88): `SESSION_FILE.unlink(missing_ok=True)`
deletes the session file when present and is a no-op when absent; the
in-memory flag is untouched. -/
def logout_body (s : State) (_ : Env) : Out PUnit :=
  ⟨{ s with sessionFileExists := false }, .ok ⟨⟩, [.unlinkSessionFile]⟩

/-- `logout` (source lines 85 to 88) with its `try_except_request`
decorator. -/
def logout : State → Env → Out PUnit :=
  try_except_request logout_body

/-- Body of `fetch_unit` (source lines 92 to 93): delegate to
`collectors.fetch_unit` (a collaborator not under `src/`), whose outcome the
environment fixes. -/
def fetch_unit_body (url : String) (s : State) (e : Env) : Out Unit :=
  match e.fetchUnitResult with
  | .ok u => ⟨s, .ok u, [.collectorsFetchUnit url]⟩
  | .error m => ⟨s, .error (.raw m), [.collectorsFetchUnit url]⟩

/-- `fetch_unit` (source lines 90 to 93): `try_except_request` outside,
`login_required` inside. -/
def fetch_unit (url : String) : State → Env → Out Unit :=
  try_except_request (login_required (fetch_unit_body url))

/-- Body of `fetch_course` (source lines 97 to 98): delegate to
`collectors.fetch_course`. -/
def fetch_course_body (url : String) (s : State) (e : Env) : Out Course :=
  match e.fetchCourseResult with
  | .ok c => ⟨s, .ok c, [.collectorsFetchCourse url]⟩
  | .error m => ⟨s, .error (.raw m), [.collectorsFetchCourse url]⟩

/-- `fetch_course` (source lines 95 to 98): `try_except_request` outside,
`login_required` inside. -/
def fetch_course (url : String) : State → Env → Out Course :=
  try_except_request (login_required (fetch_course_body url))

/-- Body of `download` (source lines 102 to 126): if the URL is a video,
lecture or quiz, call `self.fetch_unit` (the decorated method) and hand the
unit to `download_unit` with destination `slug + ".mp4"` for a video unit
and `slug + ".mhtml"` otherwise; if it is a course, call `self.fetch_course`
and hand the course to `download_course`; otherwise raise the plain
invalid-URL `Exception`. -/
def download_body (url : String) (s : State) (e : Env) : Out PUnit :=
  if is_video url || is_lecture url || is_quiz url then
    match fetch_unit url s e with
    | ⟨s1, .ok u, fx⟩ =>
        let extension := if u.type = TypeUnit.VIDEO then ".mp4" else ".mhtml"
        if e.downloadUnitFails then
          ⟨s1, .error (.raw "download unit failed"),
            fx ++ [.downloadUnit (u.slug ++ extension)]⟩
        else
          ⟨s1, .ok ⟨⟩, fx ++ [.downloadUnit (u.slug ++ extension)]⟩
    | ⟨s1, .error err, fx⟩ => ⟨s1, .error err, fx⟩
  else if is_course url then
    match fetch_course url s e with
    | ⟨s1, .ok c, fx⟩ =>
        if e.downloadCourseFails then
          ⟨s1, .error (.raw "download course failed"), fx ++ [.downloadCourse c.slug]⟩
        else
          ⟨s1, .ok ⟨⟩, fx ++ [.downloadCourse c.slug]⟩
    | ⟨s1, .error err, fx⟩ => ⟨s1, .error err, fx⟩
  else
    ⟨s, .error (.raw invalidUrlMsg), []⟩

/-- `download` (source lines 100 to 126): `try_except_request` outside,
`login_required` inside. -/
def download (url : String) : State → Env → Out PUnit :=
  try_except_request (login_required (download_body url))

/-- Body of `set_cookies` (source lines 129 to 133): read the JSON export,
normalize, install into the context, re-run the authentication probe (the
decorated `_set_profile`), persist the session state.  `read_json` raising
(missing file, invalid JSON) propagates as a raw error; a raised probe
aborts before the persist step. -/
def set_cookies_body (path : String) (s : State) (e : Env) : Out PUnit :=
  match e.readJsonResult with
  | .error m => ⟨s, .error (.raw m), [.readJson path]⟩
  | .ok cs =>
      match _set_profile s e with
      | ⟨s1, .ok _, fxp⟩ =>
          if e.saveStateFails then
            ⟨s1, .error (.raw "save state failed"),
              [.readJson path, .addCookies (normalize_cookies cs)] ++ fxp⟩
          else
            ⟨{ s1 with sessionFileExists := true }, .ok ⟨⟩,
              [.readJson path, .addCookies (normalize_cookies cs)] ++ fxp ++ [.saveState]⟩
      | ⟨s1, .error err, fxp⟩ =>
          ⟨s1, .error err, [.readJson path, .addCookies (normalize_cookies cs)] ++ fxp⟩

/-- `set_cookies` (source lines 128 to 133) with its `try_except_request`
decorator and no auth gate. -/
def set_cookies (path : String) : State → Env → Out PUnit :=
  try_except_request (set_cookies_body path)

/-- `__aenter__` (source lines 25 to 41): start playwright, launch the
browser, create the context, apply stealth, restore the session state, run
the authentication probe.  There is no exception handling: a failing step
propagates and no already-created resource is closed; a failing probe page
open propagates as the request-failed error `_set_profile` raises. -/
def start (s : State) (e : Env) : Out PUnit :=
  if e.playwrightStartFails then
    ⟨s, .error (.raw "playwright start failed"), []⟩
  else if e.browserLaunchFails then
    ⟨s, .error (.raw "browser launch failed"), [.playwrightStart]⟩
  else if e.contextCreateFails then
    ⟨s, .error (.raw "context create failed"), [.playwrightStart, .browserLaunch]⟩
  else if e.stealthFails then
    ⟨s, .error (.raw "stealth apply failed"),
      [.playwrightStart, .browserLaunch, .contextCreate]⟩
  else if e.loadStateFails then
    ⟨s, .error (.raw "load state failed"),
      [.playwrightStart, .browserLaunch, .contextCreate, .stealthApply]⟩
  else
    match _set_profile s e with
    | ⟨s1, .ok _, fxp⟩ =>
        ⟨s1, .ok ⟨⟩,
          [.playwrightStart, .browserLaunch, .contextCreate, .stealthApply, .loadState] ++ fxp⟩
    | ⟨s1, .error err, fxp⟩ =>
        ⟨s1, .error err,
          [.playwrightStart, .browserLaunch, .contextCreate, .stealthApply, .loadState] ++ fxp⟩

/-- `__aexit__` (source lines 43 to 46): close the context, then the
browser, then stop playwright, each awaited in order with no exception
handling, so a failing close propagates and skips the remaining closes. -/
def stop (s : State) (e : Env) : Out PUnit :=
  if e.contextCloseFails then
    ⟨s, .error (.raw "context close failed"), []⟩
  else if e.browserCloseFails then
    ⟨s, .error (.raw "browser close failed"), [.contextClose]⟩
  else if e.playwrightStopFails then
    ⟨s, .error (.raw "playwright stop failed"), [.contextClose, .browserClose]⟩
  else
    ⟨s, .ok ⟨⟩, [.contextClose, .browserClose, .playwrightStop]⟩

/-- State right after `AsyncFacilito.__init__` (source lines 21 to 23):
`authenticated` is set to `False`; the constructor does not touch the
session file, so its existence is a parameter. -/
def initState (sessionFileExists : Bool) : State :=
  ⟨false, sessionFileExists⟩

/-- Number of collector unit fetches in an effect trace. -/
def unitFetchCount (fx : List Effect) : Nat :=
  (fx.filter fun f => match f with | .collectorsFetchUnit _ => true | _ => false).length

/-- Number of collector course fetches in an effect trace. -/
def courseFetchCount (fx : List Effect) : Nat :=
  (fx.filter fun f => match f with | .collectorsFetchCourse _ => true | _ => false).length

/-- Destination filenames of the unit-downloader invocations in an effect
trace, in order. -/
def unitDownloadDests (fx : List Effect) : List String :=
  fx.filterMap fun f => match f with | .downloadUnit d => some d | _ => none

/-- Number of course-downloader invocations in an effect trace. -/
def courseDownloadCount (fx : List Effect) : Nat :=
  (fx.filter fun f => match f with | .downloadCourse _ => true | _ => false).length

/-- Whether an operation raised. -/
def isErr {α : Type} : Except Err α → Bool
  | .error _ => true
  | .ok _ => false

/-- Monotonicity of the `authenticated` flag across one operation: the
operation either leaves the flag as it was or sets it to `true`. -/
def monoAuth {α : Type} (s : State) (o : Out α) : Prop :=
  o.state.authenticated = s.authenticated ∨ o.state.authenticated = true

/-- An environment in which every external action succeeds: the probe finds
a non-empty greeting, the collectors return a video unit with slug
`some-slug` and a course with slug `abc`, and the cookie file parses. -/
def envOk : Env :=
  { playwrightStartFails := false
    browserLaunchFails := false
    contextCreateFails := false
    stealthFails := false
    loadStateFails := false
    newPageFails := false
    gotoFails := false
    waitSelectorResult := .ok true
    probeText := .ok (some "Hola")
    saveStateFails := false
    fetchUnitResult := .ok ⟨TypeUnit.VIDEO, "some-slug"⟩
    fetchCourseResult := .ok ⟨"abc", []⟩
    downloadUnitFails := false
    downloadCourseFails := false
    readJsonResult := .ok [⟨"n", "v", "d", "/"⟩]
    contextCloseFails := false
    browserCloseFails := false
    playwrightStopFails := false }

/-- An authenticated state with the session file on disk. -/
def stAuth : State := ⟨true, true⟩

/-- An unauthenticated state with no session file. -/
def stAnon : State := ⟨false, false⟩

/-- The spec's example video URL. -/
def vidUrl : String := "https://platform/videos/123-some-slug"

/-- The spec's example course URL. -/
def courseUrl : String := "https://platform/courses/abc"

/-- An environment in which creating a page raises. -/
def envPageFail : Env := { envOk with newPageFails := true }

/-- An environment in which applying stealth to the context raises. -/
def envStealthFail : Env := { envOk with stealthFails := true }

/-- An environment in which closing the context raises. -/
def envCtxCloseFail : Env := { envOk with contextCloseFails := true }

theorem try_except_request_state {α : Type} (f : State → Env → Out α)
    (s : State) (e : Env) :
    (try_except_request f s e).state = (f s e).state := by
  unfold try_except_request
  split
  · simp_all
  · rfl

theorem try_except_request_effects {α : Type} (f : State → Env → Out α)
    (s : State) (e : Env) :
    (try_except_request f s e).effects = (f s e).effects := by
  unfold try_except_request
  split
  · simp_all
  · rfl

theorem set_profile_pagefail (s : State) (e : Env) (hp : e.newPageFails = true) :
    _set_profile s e = ⟨s, .error (.requestFailed unboundLocalMsg), []⟩ := by
  simp [_set_profile, set_profile_body, try_except_request, hp]

theorem set_profile_ok_shape (s : State) (e : Env) (hp : e.newPageFails = false) :
    (_set_profile s e).result = .ok ⟨⟩ ∧
    Effect.goto BASE_URL ∈ (_set_profile s e).effects ∧
    (_set_profile s e).effects.getLast? = some Effect.pageClose := by
  unfold _set_profile try_except_request set_profile_body
  cases hg : e.gotoFails
  · rcases hw : e.probeText with m | t
    · simp [hp, hg, hw]
    · by_cases ht : truthy t <;> simp [hp, hg, hw, ht]
  · simp [hp, hg]

theorem set_profile_effects_sub (s : State) (e : Env) :
    ∀ f ∈ (_set_profile s e).effects,
      f = Effect.newPage ∨ f = Effect.goto BASE_URL ∨
      f = Effect.textContentQuery SELECTOR ∨ f = Effect.pageClose := by
  unfold _set_profile try_except_request set_profile_body
  cases hn : e.newPageFails
  · cases hg : e.gotoFails
    · rcases hw : e.probeText with m | t
      · simp [hn, hg, hw]
      · by_cases ht : truthy t <;> simp [hn, hg, hw, ht]
    · simp [hn, hg]
  · simp [hn]

theorem set_profile_no_close (s : State) (e : Env) :
    Effect.contextClose ∉ (_set_profile s e).effects ∧
    Effect.browserClose ∉ (_set_profile s e).effects ∧
    Effect.playwrightStop ∉ (_set_profile s e).effects := by
  refine ⟨?_, ?_, ?_⟩ <;>
    · intro hmem
      rcases set_profile_effects_sub s e _ hmem with h | h | h | h <;> simp_all

theorem start_effects_split (s : State) (e : Env)
    (h1 : e.playwrightStartFails = false) (h2 : e.browserLaunchFails = false)
    (h3 : e.contextCreateFails = false) (h4 : e.stealthFails = false)
    (h5 : e.loadStateFails = false) :
    (start s e).effects =
      [Effect.playwrightStart, Effect.browserLaunch, Effect.contextCreate,
        Effect.stealthApply, Effect.loadState] ++ (_set_profile s e).effects ∧
    (start s e).result = ((_set_profile s e).result.map fun _ => PUnit.unit) := by
  rcases hsp : _set_profile s e with ⟨s1, r, fxp⟩
  cases r with
  | ok a => cases a; simp [start, h1, h2, h3, h4, h5, hsp, Except.map]
  | error err => simp [start, h1, h2, h3, h4, h5, hsp, Except.map]

theorem set_profile_state_cases (s : State) (e : Env) :
    (_set_profile s e).state = s ∨
    (_set_profile s e).state = { s with authenticated := true } := by
  unfold _set_profile try_except_request set_profile_body
  cases hn : e.newPageFails
  · cases hg : e.gotoFails
    · rcases hw : e.probeText with m | t
      · simp [hn, hg, hw]
      · by_cases ht : truthy t <;> simp [hn, hg, hw, ht]
    · simp [hn, hg]
  · simp [hn]

/-- C2: for every auth-gated operation (`fetch_unit`, `fetch_course`,
`download`), calling it while the Authenticated flag is false fails
immediately with the authentication-required error, performs no external
action (empty effect trace), leaves the state unchanged, and the uniform
failure wrapping, which surrounds the gate, passes the gate error through
unchanged rather than translating it. -/
theorem auth_gate_blocks (uurl curl durl : String) (s : State) (e : Env)
    (h : s.authenticated = false) :
    fetch_unit uurl s e = ⟨s, .error .authRequired, []⟩ ∧
    fetch_course curl s e = ⟨s, .error .authRequired, []⟩ ∧
    download durl s e = ⟨s, .error .authRequired, []⟩ := by
  refine ⟨?_, ?_, ?_⟩ <;>
    simp [fetch_unit, fetch_course, download, try_except_request, login_required, h]

/-- C2 witness: the gate blocks all three operations on a concrete
unauthenticated state. -/
theorem auth_gate_blocks_witness :
    fetch_unit vidUrl stAnon envOk = ⟨stAnon, .error .authRequired, []⟩ ∧
    fetch_course courseUrl stAnon envOk = ⟨stAnon, .error .authRequired, []⟩ ∧
    download vidUrl stAnon envOk = ⟨stAnon, .error .authRequired, []⟩ :=
  auth_gate_blocks vidUrl courseUrl vidUrl stAnon envOk rfl

/-- C7: `logout` returns successfully for every state, in particular when the
session file is absent, deletes the persisted session file, and leaves the
in-memory Authenticated flag unchanged. -/
theorem logout_spec (s : State) (e : Env) :
    (logout s e).result = .ok ⟨⟩ ∧
    (logout s e).state.sessionFileExists = false ∧
    (logout s e).state.authenticated = s.authenticated ∧
    (logout s e).effects = [Effect.unlinkSessionFile] := by
  simp [logout, logout_body, try_except_request]

/-- C3 counterexample: when `await self.page` itself raises inside `login`,
the `except` clause raises `LoginError`, but the `finally` block then hits
the never-assigned local `page`, and the resulting `UnboundLocalError`
replaces the `LoginError`; after the uniform wrapping the caller receives a
request-failed error, not `LoginError`, so the claim as stated fails at this
concrete input. -/
theorem login_pagefail_counterexample :
    (login stAnon envPageFail).result = .error (.requestFailed unboundLocalMsg) ∧
    (login stAnon envPageFail).result ≠ .error .loginError := by
  constructor
  · rfl
  · decide

/-- C3 amended: when opening the page succeeds, `login` either succeeds,
setting the Authenticated flag, persisting the session state and closing the
page, or, on a timeout or falsy result of the greeting wait, a navigation
failure, or a failing state persist, raises `LoginError` with the opened
page still closed (the close is the last action); when opening the page
itself fails, the caller instead receives a request-failed error from the
unbound `page` cleanup and no page was opened. -/
theorem login_spec (s : State) (e : Env) (hp : e.newPageFails = false) :
    (e.gotoFails = false → e.waitSelectorResult = .ok true → e.saveStateFails = false →
        login s e = ⟨⟨true, true⟩, .ok ⟨⟩,
          [.newPage, .goto LOGIN_URL, .waitForSelector SELECTOR, .saveState, .pageClose]⟩) ∧
    ((e.gotoFails = true ∨ e.waitSelectorResult ≠ .ok true ∨ e.saveStateFails = true) →
        (login s e).result = .error .loginError ∧
        (login s e).effects.getLast? = some Effect.pageClose ∧
        Effect.newPage ∈ (login s e).effects) := by
  constructor
  · intro h1 h2 h3
    simp [login, login_body, try_except_request, hp, h1, h2, h3]
  · intro h
    cases hg : e.gotoFails
    · rcases hw : e.waitSelectorResult with m | b
      · simp [login, login_body, try_except_request, hp, hg, hw]
      · cases b
        · simp [login, login_body, try_except_request, hp, hg, hw]
        · cases hs : e.saveStateFails
          · rcases h with h | h | h <;> simp_all
          · simp [login, login_body, try_except_request, hp, hg, hw, hs]
    · simp [login, login_body, try_except_request, hp, hg]

/-- C3 witness: the success case of the amended claim at a concrete input. -/
theorem login_spec_witness :
    login stAnon envOk = ⟨⟨true, true⟩, .ok ⟨⟩,
      [.newPage, .goto LOGIN_URL, .waitForSelector SELECTOR, .saveState, .pageClose]⟩ :=
  (login_spec stAnon envOk rfl).1 rfl rfl rfl

/-- C6 counterexample: when creating the probe page itself raises, the
`finally` block of `_set_profile` hits the never-assigned local `page`, the
`UnboundLocalError` escapes the swallowing `except`, and the decorated probe
raises a request-failed error to its caller, so the claim that the probe
never raises fails at this concrete input. -/
theorem set_profile_pagefail_counterexample :
    (_set_profile stAnon envPageFail).result =
      .error (.requestFailed unboundLocalMsg) ∧
    isErr (_set_profile stAnon envPageFail).result = true := by
  constructor
  · rfl
  · decide

/-- C6 amended: when opening the probe page succeeds, the probe swallows
every later failure (navigation error, selector timeout, missing or empty
greeting) and returns successfully, closing the page as its last action; it
sets the Authenticated flag exactly when a truthy greeting text is read and
otherwise leaves the state unchanged; when opening the page itself fails,
the unbound `page` cleanup makes the decorated probe raise a request-failed
error and no page was opened. -/
theorem set_profile_spec (s : State) (e : Env) (hp : e.newPageFails = false) :
    (_set_profile s e).result = .ok ⟨⟩ ∧
    (_set_profile s e).effects.getLast? = some Effect.pageClose ∧
    ((∃ t, e.gotoFails = false ∧ e.probeText = .ok t ∧ truthy t = true) →
        (_set_profile s e).state = { s with authenticated := true }) ∧
    ((¬ ∃ t, e.gotoFails = false ∧ e.probeText = .ok t ∧ truthy t = true) →
        (_set_profile s e).state = s) := by
  refine ⟨(set_profile_ok_shape s e hp).1, (set_profile_ok_shape s e hp).2.2, ?_, ?_⟩
  · rintro ⟨t, hg, hw, ht⟩
    simp [_set_profile, set_profile_body, try_except_request, hp, hg, hw, ht]
  · intro hno
    cases hg : e.gotoFails
    · rcases hw : e.probeText with m | t
      · simp [_set_profile, set_profile_body, try_except_request, hp, hg, hw]
      · cases ht : truthy t
        · simp [_set_profile, set_profile_body, try_except_request, hp, hg, hw, ht]
        · exact absurd ⟨t, hg, hw, ht⟩ hno
    · simp [_set_profile, set_profile_body, try_except_request, hp, hg]

/-- C6 witness: with the page opening and a non-empty greeting, the probe
returns successfully and sets the flag. -/
theorem set_profile_spec_witness :
    (_set_profile stAnon envOk).result = .ok ⟨⟩ ∧
    (_set_profile stAnon envOk).state = { stAnon with authenticated := true } :=
  ⟨(set_profile_spec stAnon envOk rfl).1,
    (set_profile_spec stAnon envOk rfl).2.2.1 ⟨some "Hola", rfl, rfl, rfl⟩⟩

/-- C4 counterexample: when applying stealth raises during Start, the
playwright driver, the browser and the context have already been created,
the failure reaches the caller, and no release action (context close,
browser close, driver stop) was performed, so the claim that every
already-created resource is released before the failure propagates fails at
this concrete input. -/
theorem start_leak_counterexample :
    isErr (start stAnon envStealthFail).result = true ∧
    Effect.browserLaunch ∈ (start stAnon envStealthFail).effects ∧
    Effect.contextCreate ∈ (start stAnon envStealthFail).effects ∧
    Effect.contextClose ∉ (start stAnon envStealthFail).effects ∧
    Effect.browserClose ∉ (start stAnon envStealthFail).effects ∧
    Effect.playwrightStop ∉ (start stAnon envStealthFail).effects := by
  decide

/-- C4 amended: `__aenter__` contains no cleanup at all: on any trace it
performs no context close, browser close or driver stop, and when any of its
steps raises (playwright start, browser launch, context creation, stealth
application, state restore, or the probe page creation) the failure
propagates to the caller with the already-created resources still open. -/
theorem start_no_release (s : State) (e : Env) :
    Effect.contextClose ∉ (start s e).effects ∧
    Effect.browserClose ∉ (start s e).effects ∧
    Effect.playwrightStop ∉ (start s e).effects ∧
    ((e.playwrightStartFails || e.browserLaunchFails || e.contextCreateFails ||
        e.stealthFails || e.loadStateFails || e.newPageFails) = true →
      isErr (start s e).result = true) := by
  have hnc := set_profile_no_close s e
  cases h1 : e.playwrightStartFails
  case true => simp [start, h1, isErr]
  case false =>
  cases h2 : e.browserLaunchFails
  case true => simp [start, h1, h2, isErr]
  case false =>
  cases h3 : e.contextCreateFails
  case true => simp [start, h1, h2, h3, isErr]
  case false =>
  cases h4 : e.stealthFails
  case true => simp [start, h1, h2, h3, h4, isErr]
  case false =>
  cases h5 : e.loadStateFails
  case true => simp [start, h1, h2, h3, h4, h5, isErr]
  case false =>
  have hsplit := start_effects_split s e h1 h2 h3 h4 h5
  refine ⟨?_, ?_, ?_, ?_⟩
  · rw [hsplit.1]
    intro hmem
    rcases List.mem_append.mp hmem with h | h
    · simp at h
    · exact hnc.1 h
  · rw [hsplit.1]
    intro hmem
    rcases List.mem_append.mp hmem with h | h
    · simp at h
    · exact hnc.2.1 h
  · rw [hsplit.1]
    intro hmem
    rcases List.mem_append.mp hmem with h | h
    · simp at h
    · exact hnc.2.2 h
  · intro hfail
    simp [h1, h2, h3, h4, h5] at hfail
    rw [hsplit.2, set_profile_pagefail s e hfail]
    simp [isErr, Except.map]

/-- C4 witness: a failure of the state restore reaches the caller and the
created resources are still open. -/
theorem start_no_release_witness :
    isErr (start stAnon { envOk with loadStateFails := true }).result = true ∧
    Effect.contextClose ∉ (start stAnon { envOk with loadStateFails := true }).effects :=
  ⟨(start_no_release stAnon { envOk with loadStateFails := true }).2.2.2 (by decide),
    (start_no_release stAnon { envOk with loadStateFails := true }).1⟩

/-- C5 counterexample: when closing the context raises, `__aexit__`
propagates the failure and neither the browser close nor the driver stop is
performed, so the claim that a close failure is not fatal and does not
prevent the remaining closes fails at this concrete input. -/
theorem stop_abort_counterexample :
    isErr (stop stAuth envCtxCloseFail).result = true ∧
    Effect.browserClose ∉ (stop stAuth envCtxCloseFail).effects ∧
    Effect.playwrightStop ∉ (stop stAuth envCtxCloseFail).effects := by
  decide

/-- C5 amended: `__aexit__` closes the context, then the browser, then the
driver, in that order when no close raises; a failure while closing any one
of them propagates to the caller and the resources after it in the order are
not closed. -/
theorem stop_spec (s : State) (e : Env) :
    (e.contextCloseFails = false → e.browserCloseFails = false →
        e.playwrightStopFails = false →
        stop s e = ⟨s, .ok ⟨⟩, [.contextClose, .browserClose, .playwrightStop]⟩) ∧
    (e.contextCloseFails = true →
        isErr (stop s e).result = true ∧ (stop s e).effects = []) ∧
    (e.contextCloseFails = false → e.browserCloseFails = true →
        isErr (stop s e).result = true ∧ (stop s e).effects = [.contextClose]) ∧
    (e.contextCloseFails = false → e.browserCloseFails = false →
        e.playwrightStopFails = true →
        isErr (stop s e).result = true ∧
        (stop s e).effects = [.contextClose, .browserClose]) := by
  refine ⟨?_, ?_, ?_, ?_⟩
  · intro h1 h2 h3
    simp [stop, h1, h2, h3]
  · intro h1
    simp [stop, h1, isErr]
  · intro h1 h2
    simp [stop, h1, h2, isErr]
  · intro h1 h2 h3
    simp [stop, h1, h2, h3, isErr]

/-- C5 witness: the ordered success case at a concrete input. -/
theorem stop_spec_witness :
    stop stAuth envOk = ⟨stAuth, .ok ⟨⟩,
      [.contextClose, .browserClose, .playwrightStop]⟩ :=
  (stop_spec stAuth envOk).1 rfl rfl rfl

/-- C1: with the Authenticated flag true, `download` on a URL classified as
video, lecture or quiz fetches exactly one unit and invokes the unit
downloader exactly once, with destination filename the unit slug plus
`.mp4` for a video unit and the page-archive extension `.mhtml` otherwise;
on a URL classified as course it fetches exactly one course, invokes the
course downloader exactly once and never the unit collector or unit
downloader; on a URL in no category it raises the invalid-URL error (the
plain invalid-URL `Exception` surfaced through the uniform wrapping) and
performs no fetch and no downloader invocation. -/
theorem download_dispatch (url : String) (s : State) (e : Env)
    (hauth : s.authenticated = true) :
    (∀ u, (is_video url || is_lecture url || is_quiz url) = true →
        e.fetchUnitResult = .ok u →
        unitFetchCount (download url s e).effects = 1 ∧
        unitDownloadDests (download url s e).effects =
          [u.slug ++ (if u.type = TypeUnit.VIDEO then ".mp4" else ".mhtml")] ∧
        courseFetchCount (download url s e).effects = 0 ∧
        courseDownloadCount (download url s e).effects = 0) ∧
    (∀ c, (is_video url || is_lecture url || is_quiz url) = false →
        is_course url = true →
        e.fetchCourseResult = .ok c →
        courseFetchCount (download url s e).effects = 1 ∧
        courseDownloadCount (download url s e).effects = 1 ∧
        unitFetchCount (download url s e).effects = 0 ∧
        unitDownloadDests (download url s e).effects = []) ∧
    ((is_video url || is_lecture url || is_quiz url) = false →
        is_course url = false →
        (download url s e).result = .error (.requestFailed invalidUrlMsg) ∧
        (download url s e).effects = []) := by
  refine ⟨?_, ?_, ?_⟩
  · intro u hclass hfetch
    cases hd : e.downloadUnitFails <;>
      simp [download, download_body, fetch_unit, fetch_unit_body, try_except_request,
        login_required, hauth, hclass, hfetch, hd, unitFetchCount, unitDownloadDests,
        courseFetchCount, courseDownloadCount]
  · intro c hclass hcourse hfetch
    cases hd : e.downloadCourseFails <;>
      simp [download, download_body, fetch_course, fetch_course_body, try_except_request,
        login_required, hauth, hclass, hcourse, hfetch, hd, unitFetchCount,
        unitDownloadDests, courseFetchCount, courseDownloadCount]
  · intro hclass hcourse
    simp [download, download_body, try_except_request, login_required, hauth,
      hclass, hcourse]

/-- C1 witness: downloading the spec example video URL while authenticated
performs exactly one unit fetch and one unit-downloader invocation with
destination `some-slug.mp4`. -/
theorem download_dispatch_witness :
    unitFetchCount (download vidUrl stAuth envOk).effects = 1 ∧
    unitDownloadDests (download vidUrl stAuth envOk).effects = ["some-slug.mp4"] ∧
    courseDownloadCount (download vidUrl stAuth envOk).effects = 0 := by
  have h := (download_dispatch vidUrl stAuth envOk rfl).1
    ⟨TypeUnit.VIDEO, "some-slug"⟩ (by decide) rfl
  exact ⟨h.1, h.2.1, h.2.2.2⟩

/-- C8: `set_cookies` reads the JSON export, installs the normalized cookie
list into the context, re-runs the authentication probe and persists the
session state, in that order, when the export parses (and the probe page
opens and the persist succeeds); when `read_json` raises because the file is
missing or is not valid JSON, it fails with the wrapped request-failed error
after performing only the read. -/
theorem set_cookies_steps (p : String) (s : State) (e : Env) :
    (∀ cs, e.readJsonResult = .ok cs → e.newPageFails = false →
        e.saveStateFails = false →
        set_cookies p s e =
          ⟨{ (_set_profile s e).state with sessionFileExists := true }, .ok ⟨⟩,
            [Effect.readJson p, Effect.addCookies (normalize_cookies cs)] ++
              (_set_profile s e).effects ++ [Effect.saveState]⟩) ∧
    (∀ m, e.readJsonResult = .error m →
        (set_cookies p s e).result = .error (.requestFailed m) ∧
        (set_cookies p s e).effects = [Effect.readJson p]) := by
  constructor
  · intro cs hread hp hsave
    have hok := (set_profile_ok_shape s e hp).1
    rcases hsp : _set_profile s e with ⟨s1, r, fxp⟩
    rw [hsp] at hok
    simp only at hok
    subst hok
    simp [set_cookies, set_cookies_body, try_except_request, hread, hsp, hsave]
  · intro m hread
    simp [set_cookies, set_cookies_body, try_except_request, hread]

/-- C8 witness: the ordered trace at a concrete input, and the failure case
on an unreadable export. -/
theorem set_cookies_steps_witness :
    set_cookies "cookies.json" stAnon envOk =
      ⟨⟨true, true⟩, .ok ⟨⟩,
        [Effect.readJson "cookies.json",
          Effect.addCookies (normalize_cookies [⟨"n", "v", "d", "/"⟩]),
          Effect.newPage, Effect.goto BASE_URL, Effect.textContentQuery SELECTOR,
          Effect.pageClose, Effect.saveState]⟩ ∧
    (set_cookies "cookies.json" stAnon
        { envOk with readJsonResult := .error "bad json" }).result =
      .error (.requestFailed "bad json") := by
  constructor
  · have h := (set_cookies_steps "cookies.json" stAnon envOk).1
      [⟨"n", "v", "d", "/"⟩] rfl rfl rfl
    rw [h]
    rfl
  · exact ((set_cookies_steps "cookies.json" stAnon
      { envOk with readJsonResult := .error "bad json" }).2 "bad json" rfl).1

theorem monoAuth_of_cases {α : Type} (s : State) (o : Out α)
    (h : o.state = s ∨ o.state = { s with authenticated := true }) :
    monoAuth s o := by
  rcases h with h | h <;> simp [monoAuth, h]

theorem start_state_cases (s : State) (e : Env) :
    (start s e).state = s ∨ (start s e).state = { s with authenticated := true } := by
  cases h1 : e.playwrightStartFails
  · cases h2 : e.browserLaunchFails
    · cases h3 : e.contextCreateFails
      · cases h4 : e.stealthFails
        · cases h5 : e.loadStateFails
          · have hc := set_profile_state_cases s e
            rcases hsp : _set_profile s e with ⟨s1, r, fxp⟩
            rw [hsp] at hc
            simp only at hc
            cases r <;> simpa [start, h1, h2, h3, h4, h5, hsp] using hc
          · simp [start, h1, h2, h3, h4, h5]
        · simp [start, h1, h2, h3, h4]
      · simp [start, h1, h2, h3]
    · simp [start, h1, h2]
  · simp [start, h1]

theorem login_state_cases (s : State) (e : Env) :
    (login s e).state = s ∨ (login s e).state = { s with authenticated := true } ∨
    (login s e).state = ⟨true, true⟩ := by
  unfold login try_except_request login_body
  cases hn : e.newPageFails
  · cases hg : e.gotoFails
    · rcases hw : e.waitSelectorResult with m | b
      · simp [hn, hg, hw]
      · cases b
        · simp [hn, hg, hw]
        · cases hs : e.saveStateFails <;> simp [hn, hg, hw, hs]
    · simp [hn, hg]
  · simp [hn]

theorem fetch_unit_state (url : String) (s : State) (e : Env) :
    (fetch_unit url s e).state = s := by
  unfold fetch_unit try_except_request login_required fetch_unit_body
  cases hauth : s.authenticated <;>
    rcases hf : e.fetchUnitResult with m | u <;> simp [hauth, hf]

theorem fetch_course_state (url : String) (s : State) (e : Env) :
    (fetch_course url s e).state = s := by
  unfold fetch_course try_except_request login_required fetch_course_body
  cases hauth : s.authenticated <;>
    rcases hf : e.fetchCourseResult with m | c <;> simp [hauth, hf]

theorem download_state (url : String) (s : State) (e : Env) :
    (download url s e).state = s := by
  unfold download try_except_request login_required download_body
  cases hauth : s.authenticated
  · simp [hauth]
  · cases hv : (is_video url || is_lecture url || is_quiz url)
    · cases hc : is_course url
      · simp [hauth, hv, hc]
      · have hst := fetch_course_state url s e
        rcases hsp : fetch_course url s e with ⟨s1, r, fx⟩
        rw [hsp] at hst
        simp only at hst
        subst hst
        cases r with
        | ok c => cases hd : e.downloadCourseFails <;> simp [hauth, hv, hc, hsp, hd]
        | error err => cases err <;> simp [hauth, hv, hc, hsp]
    · have hst := fetch_unit_state url s e
      rcases hsp : fetch_unit url s e with ⟨s1, r, fx⟩
      rw [hsp] at hst
      simp only at hst
      subst hst
      cases r with
      | ok u => cases hd : e.downloadUnitFails <;> simp [hauth, hv, hsp, hd]
      | error err => cases err <;> simp [hauth, hv, hsp]

theorem set_cookies_mono (p : String) (s : State) (e : Env) :
    monoAuth s (set_cookies p s e) := by
  have hc := set_profile_state_cases s e
  unfold set_cookies try_except_request set_cookies_body
  rcases hr : e.readJsonResult with m | cs
  · simp [hr, monoAuth]
  · rcases hsp : _set_profile s e with ⟨s1, r, fxp⟩
    rw [hsp] at hc
    simp only at hc
    cases r with
    | ok a =>
        cases hs : e.saveStateFails <;>
          rcases hc with h | h <;> subst h <;> simp [hr, hsp, hs, monoAuth]
    | error err =>
        cases err <;> rcases hc with h | h <;> subst h <;> simp [hr, hsp, monoAuth]

/-- C9: the Authenticated flag is monotone: `__init__` sets it to false, and
every operation of the facade either leaves it unchanged or sets it to true;
in particular no operation, `logout` included, ever moves it from true back
to false. -/
theorem authenticated_monotone :
    (∀ b, (initState b).authenticated = false) ∧
    (∀ s e, monoAuth s (start s e)) ∧
    (∀ s e, monoAuth s (stop s e)) ∧
    (∀ s e, monoAuth s (login s e)) ∧
    (∀ s e, monoAuth s (logout s e)) ∧
    (∀ url s e, monoAuth s (fetch_unit url s e)) ∧
    (∀ url s e, monoAuth s (fetch_course url s e)) ∧
    (∀ url s e, monoAuth s (download url s e)) ∧
    (∀ p s e, monoAuth s (set_cookies p s e)) ∧
    (∀ s e, monoAuth s (_set_profile s e)) := by
  refine ⟨fun b => rfl, ?_, ?_, ?_, ?_, ?_, ?_, ?_, set_cookies_mono, ?_⟩
  · exact fun s e => monoAuth_of_cases s _ (start_state_cases s e)
  · intro s e
    left
    unfold stop
    cases h1 : e.contextCloseFails
    · cases h2 : e.browserCloseFails
      · cases h3 : e.playwrightStopFails <;> simp [h1, h2, h3]
      · simp [h1, h2]
    · simp [h1]
  · intro s e
    rcases login_state_cases s e with h | h | h <;> simp [monoAuth, h]
  · intro s e
    left
    simp [logout, logout_body, try_except_request]
  · exact fun url s e => Or.inl (by rw [fetch_unit_state url s e])
  · exact fun url s e => Or.inl (by rw [fetch_course_state url s e])
  · exact fun url s e => Or.inl (by rw [download_state url s e])
  · exact fun s e => monoAuth_of_cases s _ (set_profile_state_cases s e)

theorem set_profile_result_cases (s : State) (e : Env) :
    (_set_profile s e).result = .ok ⟨⟩ ∨
    (_set_profile s e).result = .error (.requestFailed unboundLocalMsg) := by
  cases hn : e.newPageFails
  · exact .inl (set_profile_ok_shape s e hn).1
  · rw [set_profile_pagefail s e hn]
    exact .inr rfl

theorem set_cookies_no_auth_error (p : String) (s : State) (e : Env) :
    (set_cookies p s e).result ≠ Except.error Err.authRequired := by
  have hc := set_profile_result_cases s e
  unfold set_cookies try_except_request set_cookies_body
  rcases hr : e.readJsonResult with m | cs
  · simp [hr]
  · rcases hsp : _set_profile s e with ⟨s1, r, fxp⟩
    rw [hsp] at hc
    simp only at hc
    rcases hc with hc | hc <;> subst hc
    · cases hs : e.saveStateFails <;> simp [hr, hsp, hs]
    · simp [hr, hsp]

/-- C10: `set_cookies` is not auth-gated: for every path, calling it while
the Authenticated flag is false never fails with the authentication-required
error, and when the export parses (and the probe page opens) it still
installs the normalized cookies, runs the probe navigation, and, when the
persist does not itself raise, persists the session state. -/
theorem set_cookies_ungated (p : String) (s : State) (e : Env)
    (_h : s.authenticated = false) :
    (set_cookies p s e).result ≠ .error .authRequired ∧
    (∀ cs, e.readJsonResult = .ok cs → e.newPageFails = false →
        Effect.addCookies (normalize_cookies cs) ∈ (set_cookies p s e).effects ∧
        Effect.goto BASE_URL ∈ (set_cookies p s e).effects ∧
        (e.saveStateFails = false → Effect.saveState ∈ (set_cookies p s e).effects)) := by
  refine ⟨set_cookies_no_auth_error p s e, ?_⟩
  intro cs hread hp
  have hgo := (set_profile_ok_shape s e hp).2.1
  have hok := (set_profile_ok_shape s e hp).1
  rcases hsp : _set_profile s e with ⟨s1, r, fxp⟩
  rw [hsp] at hgo hok
  simp only at hgo hok
  subst hok
  cases hs : e.saveStateFails <;>
    refine ⟨?_, ?_, ?_⟩ <;>
      simp [set_cookies, set_cookies_body, try_except_request, hread, hsp, hs, hgo]

/-- C10 witness: calling `set_cookies` unauthenticated at a concrete input
does not hit the auth gate and persists the session state. -/
theorem set_cookies_ungated_witness :
    (set_cookies "cookies.json" stAnon envOk).result ≠ .error .authRequired ∧
    Effect.saveState ∈ (set_cookies "cookies.json" stAnon envOk).effects := by
  have h := set_cookies_ungated "cookies.json" stAnon envOk rfl
  exact ⟨h.1, (h.2 [⟨"n", "v", "d", "/"⟩] rfl rfl).2.2 rfl⟩

end Facilito
